import Mathlib

/-!
Verification of the Gaussian-beam-through-lens calculator and renderer
(`src/visualization.js`).

The script computes, from four numeric input fields, the transformation of a
Gaussian beam through a thin lens and renders a schematic.  JavaScript numbers
are modelled by `JSVal`: either NaN, one of the two infinities, or a finite
value represented by a real number (rounding of IEEE doubles is not modelled;
finite arithmetic is exact real arithmetic).  The arithmetic operators carry
the IEEE special-value propagation rules that JavaScript uses.
-/

/-- A JavaScript number: NaN, +Infinity, -Infinity, or a finite value
(modelled as an exact real). -/
inductive JSVal where
  | nan : JSVal
  | posInf : JSVal
  | negInf : JSVal
  | num : ℝ → JSVal

namespace JSVal

/-- JavaScript `isNaN` on an already-parsed number. -/
def jsIsNaN (v : JSVal) : Prop := v = nan

/-- JavaScript comparison `v <= 0` (false whenever `v` is NaN). -/
def jsLe0 : JSVal → Prop
  | nan => False
  | posInf => False
  | negInf => True
  | num x => x ≤ 0

/-- JavaScript unary minus. -/
def jsNeg : JSVal → JSVal
  | nan => nan
  | posInf => negInf
  | negInf => posInf
  | num x => num (-x)

/-- JavaScript addition with IEEE special-value rules. -/
def jsAdd : JSVal → JSVal → JSVal
  | nan, _ => nan
  | _, nan => nan
  | posInf, negInf => nan
  | negInf, posInf => nan
  | posInf, _ => posInf
  | negInf, _ => negInf
  | num _, posInf => posInf
  | num _, negInf => negInf
  | num x, num y => num (x + y)

/-- JavaScript multiplication with IEEE special-value rules
(finite overflow is not modelled). -/
noncomputable def jsMul : JSVal → JSVal → JSVal
  | nan, _ => nan
  | _, nan => nan
  | posInf, posInf => posInf
  | posInf, negInf => negInf
  | negInf, posInf => negInf
  | negInf, negInf => posInf
  | posInf, num x => if x = 0 then nan else if 0 < x then posInf else negInf
  | num x, posInf => if x = 0 then nan else if 0 < x then posInf else negInf
  | negInf, num x => if x = 0 then nan else if 0 < x then negInf else posInf
  | num x, negInf => if x = 0 then nan else if 0 < x then negInf else posInf
  | num x, num y => num (x * y)

/-- JavaScript subtraction (equals addition of the negation under IEEE rules). -/
noncomputable def jsSub (a b : JSVal) : JSVal := jsAdd a (jsNeg b)

/-- JavaScript division with IEEE special-value rules (`x / 0` is a signed
infinity for finite nonzero `x`, `0 / 0` is NaN; the negative zero of IEEE is
not modelled, finite zero is treated as `+0`). -/
noncomputable def jsDiv : JSVal → JSVal → JSVal
  | nan, _ => nan
  | _, nan => nan
  | posInf, posInf => nan
  | posInf, negInf => nan
  | negInf, posInf => nan
  | negInf, negInf => nan
  | posInf, num x => if 0 ≤ x then posInf else negInf
  | negInf, num x => if 0 ≤ x then negInf else posInf
  | num _, posInf => num 0
  | num _, negInf => num 0
  | num x, num y =>
      if y = 0 then (if x = 0 then nan else if 0 < x then posInf else negInf)
      else num (x / y)

/-- JavaScript `Math.sqrt`. -/
noncomputable def jsSqrt : JSVal → JSVal
  | nan => nan
  | posInf => posInf
  | negInf => nan
  | num x => if x < 0 then nan else num (Real.sqrt x)

/-- JavaScript `v ** 2` (squaring, equal to `v * v` under IEEE rules). -/
noncomputable def jsPow2 (v : JSVal) : JSVal := jsMul v v

@[simp] theorem jsNeg_num (x : ℝ) : jsNeg (num x) = num (-x) := rfl

@[simp] theorem jsNeg_nan : jsNeg nan = nan := rfl

@[simp] theorem jsAdd_num_num (x y : ℝ) : jsAdd (num x) (num y) = num (x + y) := rfl

@[simp] theorem jsMul_num_num (x y : ℝ) : jsMul (num x) (num y) = num (x * y) := rfl

@[simp] theorem jsMul_nan_left (v : JSVal) : jsMul nan v = nan := by
  cases v <;> rfl

@[simp] theorem jsSub_num_num (x y : ℝ) : jsSub (num x) (num y) = num (x + -y) := rfl

theorem jsMul_posInf_num (x : ℝ) :
    jsMul posInf (num x) = if x = 0 then nan else if 0 < x then posInf else negInf := rfl

theorem jsDiv_num_num (x y : ℝ) :
    jsDiv (num x) (num y) =
      if y = 0 then (if x = 0 then nan else if 0 < x then posInf else negInf)
      else num (x / y) := rfl

theorem jsDiv_num_num_of_ne (x y : ℝ) (h : y ≠ 0) :
    jsDiv (num x) (num y) = num (x / y) := by
  rw [jsDiv_num_num, if_neg h]

@[simp] theorem jsDiv_num_posInf (x : ℝ) : jsDiv (num x) posInf = num 0 := rfl

theorem jsDiv_posInf_num (x : ℝ) :
    jsDiv posInf (num x) = if 0 ≤ x then posInf else negInf := rfl

theorem jsSqrt_num (x : ℝ) :
    jsSqrt (num x) = if x < 0 then nan else num (Real.sqrt x) := rfl

theorem jsSqrt_num_of_nonneg (x : ℝ) (h : 0 ≤ x) :
    jsSqrt (num x) = num (Real.sqrt x) := by
  rw [jsSqrt_num, if_neg (not_lt.mpr h)]

@[simp] theorem num_ne_nan (x : ℝ) : num x ≠ nan := by
  intro h
  exact JSVal.noConfusion h

end JSVal

open JSVal

/-! ## The optics calculator (`updateVisualization`, lines 39–57) -/

/-- The seven derived beam parameters, in the order the script computes them. -/
structure BeamResultJS where
  zr : JSVal
  w0_prime : JSVal
  alpha : JSVal
  s_prime : JSVal
  theta_in : JSVal
  theta_prime : JSVal
  zr_prime : JSVal

/-- The calculation block of `updateVisualization` (lines 39–57 of
`src/visualization.js`), operating on already-converted SI values:

    zr       = (Math.PI * w0 ** 2) / lambda
    w0_prime = (w0 * f) / Math.sqrt((s + f) ** 2 + zr ** 2)
    alpha    = w0_prime / w0
    s_prime  = f + alpha ** 2 * (-s - f)
    theta_in = lambda / (Math.PI * w0)
    theta_prime = theta_in / alpha
    zr_prime = alpha ** 2 * zr
-/
noncomputable def jsCalc (lambda f s w0 : JSVal) : BeamResultJS :=
  let zr := jsDiv (jsMul (num Real.pi) (jsPow2 w0)) lambda
  let w0_prime := jsDiv (jsMul w0 f) (jsSqrt (jsAdd (jsPow2 (jsAdd s f)) (jsPow2 zr)))
  let alpha := jsDiv w0_prime w0
  let s_prime := jsAdd f (jsMul (jsPow2 alpha) (jsSub (jsNeg s) f))
  let theta_in := jsDiv lambda (jsMul (num Real.pi) w0)
  let theta_prime := jsDiv theta_in alpha
  let zr_prime := jsMul (jsPow2 alpha) zr
  ⟨zr, w0_prime, alpha, s_prime, theta_in, theta_prime, zr_prime⟩

/-- The seven derived beam parameters as exact reals. -/
structure BeamResultR where
  zr : ℝ
  w0_prime : ℝ
  alpha : ℝ
  s_prime : ℝ
  theta_in : ℝ
  theta_prime : ℝ
  zr_prime : ℝ

/-- The same calculation (lines 39–57) over exact reals; used to state
real-valued properties of the finite-input case. -/
noncomputable def calcR (lambda f s w0 : ℝ) : BeamResultR :=
  let zr := Real.pi * w0 ^ 2 / lambda
  let w0_prime := w0 * f / Real.sqrt ((s + f) ^ 2 + zr ^ 2)
  let alpha := w0_prime / w0
  let s_prime := f + alpha ^ 2 * (-s - f)
  let theta_in := lambda / (Real.pi * w0)
  let theta_prime := theta_in / alpha
  let zr_prime := alpha ^ 2 * zr
  ⟨zr, w0_prime, alpha, s_prime, theta_in, theta_prime, zr_prime⟩

section CalcLemmas

variable (l f s w : ℝ)

theorem calcR_zr : (calcR l f s w).zr = Real.pi * w ^ 2 / l := rfl

theorem calcR_w0_prime :
    (calcR l f s w).w0_prime =
      w * f / Real.sqrt ((s + f) ^ 2 + (Real.pi * w ^ 2 / l) ^ 2) := rfl

theorem calcR_alpha :
    (calcR l f s w).alpha = (calcR l f s w).w0_prime / w := rfl

theorem calcR_s_prime :
    (calcR l f s w).s_prime = f + (calcR l f s w).alpha ^ 2 * (-s - f) := rfl

theorem calcR_theta_in : (calcR l f s w).theta_in = l / (Real.pi * w) := rfl

theorem calcR_theta_prime :
    (calcR l f s w).theta_prime = (calcR l f s w).theta_in / (calcR l f s w).alpha := rfl

theorem calcR_zr_prime :
    (calcR l f s w).zr_prime = (calcR l f s w).alpha ^ 2 * (calcR l f s w).zr := rfl

/-- Positivity of the pieces of the calculation for guard-passing finite
inputs: the Rayleigh range, the square-root argument, and all derived
quantities except the signed waist position are strictly positive. -/
theorem calcR_pos (hl : 0 < l) (hf : 0 < f) (hw : 0 < w) :
    0 < (calcR l f s w).zr ∧
    0 < (s + f) ^ 2 + (calcR l f s w).zr ^ 2 ∧
    0 < Real.sqrt ((s + f) ^ 2 + (calcR l f s w).zr ^ 2) ∧
    0 < (calcR l f s w).w0_prime ∧
    0 < (calcR l f s w).alpha ∧
    0 < (calcR l f s w).theta_in ∧
    0 < (calcR l f s w).theta_prime ∧
    0 < (calcR l f s w).zr_prime := by
  have hzr : 0 < (calcR l f s w).zr := by
    rw [calcR_zr]
    positivity
  have harg : 0 < (s + f) ^ 2 + (calcR l f s w).zr ^ 2 := by
    have h1 : 0 ≤ (s + f) ^ 2 := sq_nonneg _
    have h2 : 0 < (calcR l f s w).zr ^ 2 := by positivity
    linarith
  have hsqrt : 0 < Real.sqrt ((s + f) ^ 2 + (calcR l f s w).zr ^ 2) :=
    Real.sqrt_pos.mpr harg
  have hw0p : 0 < (calcR l f s w).w0_prime := by
    rw [calcR_w0_prime]
    rw [calcR_zr] at hsqrt
    exact div_pos (mul_pos hw hf) hsqrt
  have halpha : 0 < (calcR l f s w).alpha := by
    rw [calcR_alpha]
    exact div_pos hw0p hw
  have hth : 0 < (calcR l f s w).theta_in := by
    rw [calcR_theta_in]
    positivity
  have hthp : 0 < (calcR l f s w).theta_prime := by
    rw [calcR_theta_prime]
    exact div_pos hth halpha
  have hzrp : 0 < (calcR l f s w).zr_prime := by
    rw [calcR_zr_prime]
    positivity
  exact ⟨hzr, harg, hsqrt, hw0p, halpha, hth, hthp, hzrp⟩

/-- On finite guard-passing inputs the JavaScript calculation produces the
finite result given by the exact real calculation: no special value appears. -/
theorem jsCalc_num (hl : 0 < l) (hf : 0 < f) (hw : 0 < w) :
    jsCalc (num l) (num f) (num s) (num w) =
      ⟨num (calcR l f s w).zr, num (calcR l f s w).w0_prime,
       num (calcR l f s w).alpha, num (calcR l f s w).s_prime,
       num (calcR l f s w).theta_in, num (calcR l f s w).theta_prime,
       num (calcR l f s w).zr_prime⟩ := by
  obtain ⟨hzr, harg, hsqrt, hw0p, halpha, hth, hthp, hzrp⟩ := calcR_pos l f s w hl hf hw
  have hlne : l ≠ 0 := ne_of_gt hl
  have hwne : w ≠ 0 := ne_of_gt hw
  have e_zr : jsDiv (jsMul (num Real.pi) (jsPow2 (num w))) (num l) =
      num ((calcR l f s w).zr) := by
    rw [jsPow2, jsMul_num_num, jsMul_num_num, jsDiv_num_num_of_ne _ _ hlne,
      calcR_zr]
    ring_nf
  have hargRaw : (0:ℝ) ≤ (s + f) * (s + f) + (calcR l f s w).zr * (calcR l f s w).zr := by
    nlinarith [harg]
  have e_sqrt : jsSqrt (jsAdd (jsPow2 (jsAdd (num s) (num f))) (jsPow2 (num (calcR l f s w).zr))) =
      num (Real.sqrt ((s + f) ^ 2 + (calcR l f s w).zr ^ 2)) := by
    rw [jsAdd_num_num, jsPow2, jsMul_num_num, jsPow2, jsMul_num_num, jsAdd_num_num,
      jsSqrt_num_of_nonneg _ hargRaw]
    congr 1
    ring_nf
  have hsqrtne : Real.sqrt ((s + f) ^ 2 + (calcR l f s w).zr ^ 2) ≠ 0 := ne_of_gt hsqrt
  have e_w0p : jsDiv (jsMul (num w) (num f))
      (num (Real.sqrt ((s + f) ^ 2 + (calcR l f s w).zr ^ 2))) =
      num ((calcR l f s w).w0_prime) := by
    rw [jsMul_num_num, jsDiv_num_num_of_ne _ _ hsqrtne, calcR_w0_prime, calcR_zr]
  have e_alpha : jsDiv (num (calcR l f s w).w0_prime) (num w) =
      num ((calcR l f s w).alpha) := by
    rw [jsDiv_num_num_of_ne _ _ hwne, calcR_alpha]
  have e_sp : jsAdd (num f) (jsMul (jsPow2 (num (calcR l f s w).alpha))
      (jsSub (jsNeg (num s)) (num f))) = num ((calcR l f s w).s_prime) := by
    rw [jsNeg_num, jsSub_num_num, jsPow2, jsMul_num_num, jsMul_num_num, jsAdd_num_num,
      calcR_s_prime]
    congr 1
    ring
  have hpw : Real.pi * w ≠ 0 := by positivity
  have e_th : jsDiv (num l) (jsMul (num Real.pi) (num w)) =
      num ((calcR l f s w).theta_in) := by
    rw [jsMul_num_num, jsDiv_num_num_of_ne _ _ hpw, calcR_theta_in]
  have halphane : (calcR l f s w).alpha ≠ 0 := ne_of_gt halpha
  have e_thp : jsDiv (num (calcR l f s w).theta_in) (num (calcR l f s w).alpha) =
      num ((calcR l f s w).theta_prime) := by
    rw [jsDiv_num_num_of_ne _ _ halphane, calcR_theta_prime]
  have e_zrp : jsMul (jsPow2 (num (calcR l f s w).alpha)) (num (calcR l f s w).zr) =
      num ((calcR l f s w).zr_prime) := by
    rw [jsPow2, jsMul_num_num, jsMul_num_num, calcR_zr_prime]
    congr 1
    ring
  show jsCalc (num l) (num f) (num s) (num w) = _
  rw [jsCalc]
  simp only [e_zr, e_sqrt, e_w0p, e_alpha, e_sp, e_th, e_thp, e_zrp]

end CalcLemmas

/-! ## The update cycle (`updateVisualization`, lines 23–80) -/

/-- The four `parseFloat` results read from the input fields (lines 26–31):
wavelength in nm, focal length in mm, object-distance magnitude in mm,
waist in mm. -/
structure RawInputs where
  lambda : JSVal
  f : JSVal
  s : JSVal
  w0 : JSVal

/-- The record handed to `drawCanvas` (lines 68–79). -/
structure CanvasFrame where
  lambda : JSVal
  f : JSVal
  s : JSVal
  w0 : JSVal
  zr : JSVal
  theta_in : JSVal
  s_prime : JSVal
  w0_prime : JSVal
  zr_prime : JSVal
  theta_prime : JSVal

/-- The observable outputs of one cycle: the six numeric display fields, each
a value (already scaled by 1000 for display) paired with its `toFixed`
precision, and the drawing surface, which holds the last frame drawn
(`none` when nothing has been drawn yet). -/
structure DisplayState where
  s_prime : JSVal × ℕ
  w0_prime : JSVal × ℕ
  zr_in : JSVal × ℕ
  zr_prime : JSVal × ℕ
  theta_in : JSVal × ℕ
  theta_prime : JSVal × ℕ
  canvas : Option CanvasFrame

open Classical in
/-- One full update cycle (`updateVisualization`, lines 23–80): convert the
parsed field values to SI units, validate (lines 33–34, returning with the
previous display state untouched on failure), calculate, write the six
formatted display fields (lines 60–65) and redraw the canvas (lines 68–79). -/
noncomputable def updateVisualization (raw : RawInputs) (st : DisplayState) :
    DisplayState :=
  let lambda := jsMul raw.lambda (num 1e-9)
  let f := jsMul raw.f (num 1e-3)
  let s := jsMul (jsNeg raw.s) (num 1e-3)
  let w0 := jsMul raw.w0 (num 1e-3)
  if jsIsNaN lambda ∨ jsIsNaN f ∨ jsIsNaN s ∨ jsIsNaN w0 then st
  else if jsLe0 w0 ∨ jsLe0 lambda ∨ jsLe0 f then st
  else
    let r := jsCalc lambda f s w0
    { s_prime := (jsMul r.s_prime (num 1000), 2),
      w0_prime := (jsMul r.w0_prime (num 1000), 3),
      zr_in := (jsMul r.zr (num 1000), 2),
      zr_prime := (jsMul r.zr_prime (num 1000), 2),
      theta_in := (jsMul r.theta_in (num 1000), 3),
      theta_prime := (jsMul r.theta_prime (num 1000), 3),
      canvas := some ⟨lambda, f, s, w0, r.zr, r.theta_in, r.s_prime,
        r.w0_prime, r.zr_prime, r.theta_prime⟩ }

/-! ## The scene renderer (`drawCanvas`, lines 82–273) -/

/-- The horizontal span of the drawing (line 94–95):
`Math.max(-s, s_prime, f, Math.abs(s + f), Math.abs(s_prime - f)) * 2.2`. -/
noncomputable def totalDist (s s_prime f : ℝ) : ℝ :=
  max (max (max (max (-s) s_prime) f) |s + f|) |s_prime - f| * 2.2

/-- The horizontal scale (line 96): `canvasWidth / totalDist`. -/
noncomputable def scaleX (canvasWidth s s_prime f : ℝ) : ℝ :=
  canvasWidth / totalDist s s_prime f

/-- Input-beam radius at the left edge of the drawing area (lines 99–100). -/
noncomputable def beamWidthAtStart (w0 s zr td : ℝ) : ℝ :=
  w0 * Real.sqrt (1 + ((-td / 2 - s) / zr) ^ 2)

/-- Output-beam radius at the right edge of the drawing area (lines 101–102). -/
noncomputable def beamWidthAtEnd (w0_prime s_prime zr_prime td : ℝ) : ℝ :=
  w0_prime * Real.sqrt (1 + ((td / 2 - s_prime) / zr_prime) ^ 2)

/-- The larger of the two edge radii (line 103). -/
noncomputable def maxHeight (w0 s zr w0_prime s_prime zr_prime td : ℝ) : ℝ :=
  max (beamWidthAtStart w0 s zr td) (beamWidthAtEnd w0_prime s_prime zr_prime td)

/-- The vertical scale (line 104): `canvasHeight / (maxHeight * 2.5)`. -/
noncomputable def scaleY (canvasHeight w0 s zr w0_prime s_prime zr_prime td : ℝ) : ℝ :=
  canvasHeight / (maxHeight w0 s zr w0_prime s_prime zr_prime td * 2.5)

/-- The Gaussian beam-radius law sampled by `drawBeam` (lines 141–142, 153–154):
`w_z = waistRadius * Math.sqrt(1 + ((z - waistPos) / rayleighRange) ** 2)`. -/
noncomputable def w_z (waistRadius waistPos rayleighRange z : ℝ) : ℝ :=
  waistRadius * Real.sqrt (1 + ((z - waistPos) / rayleighRange) ^ 2)

/-- Canvas y-coordinate of the top envelope boundary at axial position `z`
(line 143): `opticalAxisY - w_z * scaleY`. -/
noncomputable def beamTopY (opticalAxisY sY waistRadius waistPos rayleighRange z : ℝ) : ℝ :=
  opticalAxisY - w_z waistRadius waistPos rayleighRange z * sY

/-- Canvas y-coordinate of the bottom envelope boundary at axial position `z`
(line 155): `opticalAxisY + w_z * scaleY`. -/
noncomputable def beamBotY (opticalAxisY sY waistRadius waistPos rayleighRange z : ℝ) : ℝ :=
  opticalAxisY + w_z waistRadius waistPos rayleighRange z * sY

/-- An `rgba` fill colour: three colour channels and an alpha channel. -/
structure FillColor where
  r : ℚ
  g : ℚ
  b : ℚ
  a : ℚ
  deriving DecidableEq

/-- The fill style set by `drawBeam` before filling the envelope polygon
(line 159): `rgba(255, 100, 100, 0.3)`. -/
def drawBeamFill : FillColor := ⟨255, 100, 100, 0.3⟩

/-- The fill used for the input beam: `drawBeam` is called for the input beam
at line 164 and always sets the same fill style. -/
def inputBeamFill : FillColor := drawBeamFill

/-- The fill used for the output beam: `drawBeam` is called for the output
beam at line 165 and always sets the same fill style. -/
def outputBeamFill : FillColor := drawBeamFill

/-! ## Helper lemmas about the update cycle -/

/-- A sample prior display state (used to exhibit concrete update cycles). -/
def st0 : DisplayState :=
  ⟨(num 0, 0), (num 0, 0), (num 1, 2), (num 0, 0), (num 0, 0), (num 0, 0), none⟩

/-- A parsed-input vector whose wavelength field parsed to `+Infinity`
(e.g. the text `1e400`), with the remaining fields valid. -/
def rawInf : RawInputs := ⟨posInf, num 100, num 150, num 0.5⟩

theorem updateVisualization_of_valid (raw : RawInputs) (st : DisplayState)
    (h1 : ¬ (jsIsNaN (jsMul raw.lambda (num 1e-9)) ∨ jsIsNaN (jsMul raw.f (num 1e-3)) ∨
          jsIsNaN (jsMul (jsNeg raw.s) (num 1e-3)) ∨ jsIsNaN (jsMul raw.w0 (num 1e-3))))
    (h2 : ¬ (jsLe0 (jsMul raw.w0 (num 1e-3)) ∨ jsLe0 (jsMul raw.lambda (num 1e-9)) ∨
          jsLe0 (jsMul raw.f (num 1e-3)))) :
    updateVisualization raw st =
      { s_prime := (jsMul (jsCalc (jsMul raw.lambda (num 1e-9)) (jsMul raw.f (num 1e-3))
            (jsMul (jsNeg raw.s) (num 1e-3)) (jsMul raw.w0 (num 1e-3))).s_prime (num 1000), 2),
        w0_prime := (jsMul (jsCalc (jsMul raw.lambda (num 1e-9)) (jsMul raw.f (num 1e-3))
            (jsMul (jsNeg raw.s) (num 1e-3)) (jsMul raw.w0 (num 1e-3))).w0_prime (num 1000), 3),
        zr_in := (jsMul (jsCalc (jsMul raw.lambda (num 1e-9)) (jsMul raw.f (num 1e-3))
            (jsMul (jsNeg raw.s) (num 1e-3)) (jsMul raw.w0 (num 1e-3))).zr (num 1000), 2),
        zr_prime := (jsMul (jsCalc (jsMul raw.lambda (num 1e-9)) (jsMul raw.f (num 1e-3))
            (jsMul (jsNeg raw.s) (num 1e-3)) (jsMul raw.w0 (num 1e-3))).zr_prime (num 1000), 2),
        theta_in := (jsMul (jsCalc (jsMul raw.lambda (num 1e-9)) (jsMul raw.f (num 1e-3))
            (jsMul (jsNeg raw.s) (num 1e-3)) (jsMul raw.w0 (num 1e-3))).theta_in (num 1000), 3),
        theta_prime := (jsMul (jsCalc (jsMul raw.lambda (num 1e-9)) (jsMul raw.f (num 1e-3))
            (jsMul (jsNeg raw.s) (num 1e-3)) (jsMul raw.w0 (num 1e-3))).theta_prime (num 1000), 3),
        canvas := some ⟨jsMul raw.lambda (num 1e-9), jsMul raw.f (num 1e-3),
          jsMul (jsNeg raw.s) (num 1e-3), jsMul raw.w0 (num 1e-3),
          (jsCalc (jsMul raw.lambda (num 1e-9)) (jsMul raw.f (num 1e-3))
            (jsMul (jsNeg raw.s) (num 1e-3)) (jsMul raw.w0 (num 1e-3))).zr,
          (jsCalc (jsMul raw.lambda (num 1e-9)) (jsMul raw.f (num 1e-3))
            (jsMul (jsNeg raw.s) (num 1e-3)) (jsMul raw.w0 (num 1e-3))).theta_in,
          (jsCalc (jsMul raw.lambda (num 1e-9)) (jsMul raw.f (num 1e-3))
            (jsMul (jsNeg raw.s) (num 1e-3)) (jsMul raw.w0 (num 1e-3))).s_prime,
          (jsCalc (jsMul raw.lambda (num 1e-9)) (jsMul raw.f (num 1e-3))
            (jsMul (jsNeg raw.s) (num 1e-3)) (jsMul raw.w0 (num 1e-3))).w0_prime,
          (jsCalc (jsMul raw.lambda (num 1e-9)) (jsMul raw.f (num 1e-3))
            (jsMul (jsNeg raw.s) (num 1e-3)) (jsMul raw.w0 (num 1e-3))).zr_prime,
          (jsCalc (jsMul raw.lambda (num 1e-9)) (jsMul raw.f (num 1e-3))
            (jsMul (jsNeg raw.s) (num 1e-3)) (jsMul raw.w0 (num 1e-3))).theta_prime⟩ } := by
  simp only [updateVisualization]
  rw [if_neg h1, if_neg h2]

/-- C2: if any parsed field is NaN, or (after unit conversion) the waist,
wavelength, or focal length is non-positive, the update cycle aborts before
producing output: the display fields and the drawing surface are returned
exactly as they were (atomicity on error; lines 33–34 of
`src/visualization.js`). -/
theorem invalid_input_aborts_cycle (raw : RawInputs) (st : DisplayState)
    (h : raw.lambda = nan ∨ raw.f = nan ∨ raw.s = nan ∨ raw.w0 = nan ∨
         jsLe0 (jsMul raw.w0 (num 1e-3)) ∨ jsLe0 (jsMul raw.lambda (num 1e-9)) ∨
         jsLe0 (jsMul raw.f (num 1e-3))) :
    updateVisualization raw st = st := by
  simp only [updateVisualization]
  split_ifs with h1 h2
  · rfl
  · rfl
  · exfalso
    rcases h with h | h | h | h | h | h | h
    · exact h1 (Or.inl (show jsMul raw.lambda (num 1e-9) = nan by
        rw [h]; exact jsMul_nan_left _))
    · exact h1 (Or.inr (Or.inl (show jsMul raw.f (num 1e-3) = nan by
        rw [h]; exact jsMul_nan_left _)))
    · exact h1 (Or.inr (Or.inr (Or.inl (show jsMul (jsNeg raw.s) (num 1e-3) = nan by
        rw [h]; exact jsMul_nan_left _))))
    · exact h1 (Or.inr (Or.inr (Or.inr (show jsMul raw.w0 (num 1e-3) = nan by
        rw [h]; exact jsMul_nan_left _))))
    · exact h2 (Or.inl h)
    · exact h2 (Or.inr (Or.inl h))
    · exact h2 (Or.inr (Or.inr h))

/-- Witness for `invalid_input_aborts_cycle`: a concrete cycle whose
wavelength field parsed to NaN leaves the concrete prior state `st0`
untouched. -/
theorem invalid_input_aborts_cycle_witness :
    ((RawInputs.mk nan (num 100) (num 150) (num 0.5)).lambda = nan ∨
       (RawInputs.mk nan (num 100) (num 150) (num 0.5)).f = nan ∨
       (RawInputs.mk nan (num 100) (num 150) (num 0.5)).s = nan ∨
       (RawInputs.mk nan (num 100) (num 150) (num 0.5)).w0 = nan ∨
       jsLe0 (jsMul (RawInputs.mk nan (num 100) (num 150) (num 0.5)).w0 (num 1e-3)) ∨
       jsLe0 (jsMul (RawInputs.mk nan (num 100) (num 150) (num 0.5)).lambda (num 1e-9)) ∨
       jsLe0 (jsMul (RawInputs.mk nan (num 100) (num 150) (num 0.5)).f (num 1e-3))) ∧
    updateVisualization (RawInputs.mk nan (num 100) (num 150) (num 0.5)) st0 = st0 :=
  ⟨Or.inl rfl, invalid_input_aborts_cycle _ st0 (Or.inl rfl)⟩

theorem rawInf_conv_lambda : jsMul rawInf.lambda (num 1e-9) = posInf := by
  show jsMul posInf (num 1e-9) = posInf
  rw [jsMul_posInf_num, if_neg (by norm_num), if_pos (by norm_num)]

theorem rawInf_guard1 :
    ¬ (jsIsNaN (jsMul rawInf.lambda (num 1e-9)) ∨ jsIsNaN (jsMul rawInf.f (num 1e-3)) ∨
       jsIsNaN (jsMul (jsNeg rawInf.s) (num 1e-3)) ∨ jsIsNaN (jsMul rawInf.w0 (num 1e-3))) := by
  rw [rawInf_conv_lambda]
  show ¬ (jsIsNaN posInf ∨ jsIsNaN (num (100 * 1e-3)) ∨
    jsIsNaN (num (-150 * 1e-3)) ∨ jsIsNaN (num (0.5 * 1e-3)))
  simp [jsIsNaN]

theorem rawInf_guard2 :
    ¬ (jsLe0 (jsMul rawInf.w0 (num 1e-3)) ∨ jsLe0 (jsMul rawInf.lambda (num 1e-9)) ∨
       jsLe0 (jsMul rawInf.f (num 1e-3))) := by
  rw [rawInf_conv_lambda]
  show ¬ (jsLe0 (num (0.5 * 1e-3)) ∨ jsLe0 posInf ∨ jsLe0 (num (100 * 1e-3)))
  simp only [jsLe0]
  push_neg
  norm_num

theorem update_rawInf_canvas (st : DisplayState) :
    (updateVisualization rawInf st).canvas ≠ none := by
  rw [updateVisualization_of_valid rawInf st rawInf_guard1 rawInf_guard2]
  simp

theorem update_rawInf_zr (st : DisplayState) :
    (updateVisualization rawInf st).zr_in = (num 0, 2) := by
  rw [updateVisualization_of_valid rawInf st rawInf_guard1 rawInf_guard2]
  have e_zr : (jsCalc (jsMul rawInf.lambda (num 1e-9)) (jsMul rawInf.f (num 1e-3))
      (jsMul (jsNeg rawInf.s) (num 1e-3)) (jsMul rawInf.w0 (num 1e-3))).zr = num 0 := by
    rw [rawInf_conv_lambda]
    show (jsCalc posInf (num (100 * 1e-3)) (num (-150 * 1e-3)) (num (0.5 * 1e-3))).zr = num 0
    show jsDiv (jsMul (num Real.pi) (jsPow2 (num (0.5 * 1e-3)))) posInf = num 0
    rw [jsPow2, jsMul_num_num, jsMul_num_num, jsDiv_num_posInf]
  show (jsMul (jsCalc _ _ _ _).zr (num 1000), 2) = (num 0, 2)
  rw [e_zr, jsMul_num_num]
  norm_num

/-- C3 counterexample: `rawInf` has a non-finite component
(`rawInf.lambda = +Infinity`), yet the update cycle does NOT abort: starting
from the prior state `st0` it produces a changed display state, so the claim
"a non-finite component is treated as invalid and produces no output update"
is false.  The guard at lines 33–34 checks only NaN and non-positivity, and
`isNaN(Infinity)` is false while `Infinity <= 0` is false. -/
theorem nonfinite_rejected_counterexample :
    rawInf.lambda = posInf ∧ updateVisualization rawInf st0 ≠ st0 := by
  refine ⟨rfl, fun hEq => ?_⟩
  have hc := congrArg DisplayState.canvas hEq
  exact update_rawInf_canvas st0 (by rw [hc]; rfl)

/-- C3 amended: a non-finite component violates the data-model invariant, but
the validity guard does not detect non-finite values: with the wavelength
field parsed to `+Infinity` (and the other fields valid) the guard passes and
the cycle writes all outputs — the canvas is redrawn and, for example, the
input-Rayleigh-range display field is set to `0` with 2 decimals (since
`zR = π·w0²/Infinity` evaluates to `0`), regardless of the prior state. -/
theorem nonfinite_passes_guard (st : DisplayState) :
    rawInf.lambda = posInf ∧
    (updateVisualization rawInf st).canvas ≠ none ∧
    (updateVisualization rawInf st).zr_in = (num 0, 2) :=
  ⟨rfl, update_rawInf_canvas st, update_rawInf_zr st⟩

/-- C1: for every valid finite input (wavelength `l`, focal length `f`,
signed object distance `s`, waist `w`, all in meters, with `l`, `f`, `w`
positive), the calculator returns exactly the seven derived values, chained
in this order: `zR = π·w0²/λ`, `w0' = w0·f/√((s+f)² + zR²)`, `α = w0'/w0`,
`s' = f + α²·(−s − f)`, `θ = λ/(π·w0)`, `θ' = θ/α`, `zR' = α²·zR`. -/
theorem calc_seven_formulas (l f s w zR w0p alpha sp th thp zRp : ℝ)
    (hl : 0 < l) (hf : 0 < f) (hw : 0 < w)
    (h1 : zR = Real.pi * w ^ 2 / l)
    (h2 : w0p = w * f / Real.sqrt ((s + f) ^ 2 + zR ^ 2))
    (h3 : alpha = w0p / w)
    (h4 : sp = f + alpha ^ 2 * (-s - f))
    (h5 : th = l / (Real.pi * w))
    (h6 : thp = th / alpha)
    (h7 : zRp = alpha ^ 2 * zR) :
    jsCalc (num l) (num f) (num s) (num w) =
      ⟨num zR, num w0p, num alpha, num sp, num th, num thp, num zRp⟩ := by
  subst h1 h2 h3 h4 h5 h6 h7
  exact jsCalc_num l f s w hl hf hw

/-- Witness for `calc_seven_formulas` at λ = 632.8 nm, f = 100 mm,
s = −150 mm, w0 = 0.5 mm (SI values). -/
theorem calc_seven_formulas_witness :
    (0:ℝ) < 632.8e-9 ∧ (0:ℝ) < 0.1 ∧ (0:ℝ) < 0.0005 ∧
    jsCalc (num 632.8e-9) (num 0.1) (num (-0.15)) (num 0.0005) =
      ⟨num ((calcR 632.8e-9 0.1 (-0.15) 0.0005).zr),
       num ((calcR 632.8e-9 0.1 (-0.15) 0.0005).w0_prime),
       num ((calcR 632.8e-9 0.1 (-0.15) 0.0005).alpha),
       num ((calcR 632.8e-9 0.1 (-0.15) 0.0005).s_prime),
       num ((calcR 632.8e-9 0.1 (-0.15) 0.0005).theta_in),
       num ((calcR 632.8e-9 0.1 (-0.15) 0.0005).theta_prime),
       num ((calcR 632.8e-9 0.1 (-0.15) 0.0005).zr_prime)⟩ :=
  ⟨by norm_num, by norm_num, by norm_num,
   calc_seven_formulas 632.8e-9 0.1 (-0.15) 0.0005 _ _ _ _ _ _ _
     (by norm_num) (by norm_num) (by norm_num) rfl rfl rfl rfl rfl rfl rfl⟩

/-- C4: for all valid inputs the magnification `α = w0'/w0` computed by the
calculator equals `f / √((s+f)² + zR²)` where `zR = π·w0²/λ` is the input
Rayleigh range. -/
theorem magnification_eq (l f s w : ℝ) (hl : 0 < l) (hf : 0 < f) (hw : 0 < w) :
    (jsCalc (num l) (num f) (num s) (num w)).alpha =
      num (f / Real.sqrt ((s + f) ^ 2 + (Real.pi * w ^ 2 / l) ^ 2)) := by
  obtain ⟨-, -, hsqrt, -, -, -, -, -⟩ := calcR_pos l f s w hl hf hw
  rw [jsCalc_num l f s w hl hf hw]
  show num ((calcR l f s w).alpha) = _
  rw [calcR_alpha, calcR_w0_prime]
  congr 1
  rw [calcR_zr] at hsqrt
  field_simp
  ring

/-- Witness for `magnification_eq` at λ = 632.8 nm, f = 100 mm, s = −150 mm,
w0 = 0.5 mm. -/
theorem magnification_eq_witness :
    (0:ℝ) < 632.8e-9 ∧ (0:ℝ) < 0.1 ∧ (0:ℝ) < 0.0005 ∧
    (jsCalc (num 632.8e-9) (num 0.1) (num (-0.15)) (num 0.0005)).alpha =
      num (0.1 / Real.sqrt ((-0.15 + 0.1) ^ 2 + (Real.pi * 0.0005 ^ 2 / 632.8e-9) ^ 2)) :=
  ⟨by norm_num, by norm_num, by norm_num,
   magnification_eq 632.8e-9 0.1 (-0.15) 0.0005 (by norm_num) (by norm_num) (by norm_num)⟩

/-- C10: for every input that passes the validity guard (finite, `λ > 0`,
`f > 0`, `w0 > 0`), every arithmetic step of the calculator is well-defined:
the Rayleigh range is positive, the square-root argument `(s+f)² + zR²` and
its square root are strictly positive (so the division defining `w0'` is by a
nonzero number), `w0'`, `α`, `θ`, `θ'` and `zR'` are strictly positive (so
the divisions `α = w0'/w0`, `θ = λ/(π·w0)` and `θ' = θ/α` are by nonzero
numbers), and all seven fields computed by the JavaScript-level calculation
are finite, i.e. not NaN. -/
theorem calc_safety (l f s w : ℝ) (hl : 0 < l) (hf : 0 < f) (hw : 0 < w) :
    0 < (calcR l f s w).zr ∧
    0 < (s + f) ^ 2 + (calcR l f s w).zr ^ 2 ∧
    0 < Real.sqrt ((s + f) ^ 2 + (calcR l f s w).zr ^ 2) ∧
    0 < (calcR l f s w).w0_prime ∧
    0 < (calcR l f s w).alpha ∧
    0 < (calcR l f s w).theta_in ∧
    0 < (calcR l f s w).theta_prime ∧
    0 < (calcR l f s w).zr_prime ∧
    (jsCalc (num l) (num f) (num s) (num w)).zr ≠ nan ∧
    (jsCalc (num l) (num f) (num s) (num w)).w0_prime ≠ nan ∧
    (jsCalc (num l) (num f) (num s) (num w)).alpha ≠ nan ∧
    (jsCalc (num l) (num f) (num s) (num w)).s_prime ≠ nan ∧
    (jsCalc (num l) (num f) (num s) (num w)).theta_in ≠ nan ∧
    (jsCalc (num l) (num f) (num s) (num w)).theta_prime ≠ nan ∧
    (jsCalc (num l) (num f) (num s) (num w)).zr_prime ≠ nan := by
  obtain ⟨p1, p2, p3, p4, p5, p6, p7, p8⟩ := calcR_pos l f s w hl hf hw
  rw [jsCalc_num l f s w hl hf hw]
  exact ⟨p1, p2, p3, p4, p5, p6, p7, p8,
    num_ne_nan _, num_ne_nan _, num_ne_nan _, num_ne_nan _,
    num_ne_nan _, num_ne_nan _, num_ne_nan _⟩

/-- Witness for `calc_safety` at λ = 632.8 nm, f = 100 mm, s = −150 mm,
w0 = 0.5 mm. -/
theorem calc_safety_witness :
    (0:ℝ) < 632.8e-9 ∧ (0:ℝ) < 0.1 ∧ (0:ℝ) < 0.0005 ∧
    (0 < (calcR 632.8e-9 0.1 (-0.15) 0.0005).zr ∧
     0 < (-0.15 + 0.1) ^ 2 + (calcR 632.8e-9 0.1 (-0.15) 0.0005).zr ^ 2 ∧
     0 < Real.sqrt ((-0.15 + 0.1) ^ 2 + (calcR 632.8e-9 0.1 (-0.15) 0.0005).zr ^ 2) ∧
     0 < (calcR 632.8e-9 0.1 (-0.15) 0.0005).w0_prime ∧
     0 < (calcR 632.8e-9 0.1 (-0.15) 0.0005).alpha ∧
     0 < (calcR 632.8e-9 0.1 (-0.15) 0.0005).theta_in ∧
     0 < (calcR 632.8e-9 0.1 (-0.15) 0.0005).theta_prime ∧
     0 < (calcR 632.8e-9 0.1 (-0.15) 0.0005).zr_prime ∧
     (jsCalc (num 632.8e-9) (num 0.1) (num (-0.15)) (num 0.0005)).zr ≠ nan ∧
     (jsCalc (num 632.8e-9) (num 0.1) (num (-0.15)) (num 0.0005)).w0_prime ≠ nan ∧
     (jsCalc (num 632.8e-9) (num 0.1) (num (-0.15)) (num 0.0005)).alpha ≠ nan ∧
     (jsCalc (num 632.8e-9) (num 0.1) (num (-0.15)) (num 0.0005)).s_prime ≠ nan ∧
     (jsCalc (num 632.8e-9) (num 0.1) (num (-0.15)) (num 0.0005)).theta_in ≠ nan ∧
     (jsCalc (num 632.8e-9) (num 0.1) (num (-0.15)) (num 0.0005)).theta_prime ≠ nan ∧
     (jsCalc (num 632.8e-9) (num 0.1) (num (-0.15)) (num 0.0005)).zr_prime ≠ nan) :=
  ⟨by norm_num, by norm_num, by norm_num,
   calc_safety 632.8e-9 0.1 (-0.15) 0.0005 (by norm_num) (by norm_num) (by norm_num)⟩

/-- C5: for every cycle on finite field values (with positive wavelength,
focal length and waist), the raw parsed values are converted before
calculation — wavelength × 1e-9 (nm → m), the others × 1e-3 (mm → m), and the
entered object-distance magnitude negated to the internal signed `s` — and
after calculation the displayed outputs are the calculated values × 1000
(back to mm / mrad) with fixed precision: waist position and the two Rayleigh
ranges 2 decimals, waist radius and the two divergence angles 3 decimals.
The canvas is redrawn from the converted inputs and calculated results. -/
theorem display_units_and_precision (lr fr sr wr : ℝ) (st : DisplayState)
    (hl : 0 < lr) (hf : 0 < fr) (hw : 0 < wr) :
    updateVisualization ⟨num lr, num fr, num sr, num wr⟩ st =
      { s_prime := (num ((calcR (lr * 1e-9) (fr * 1e-3) (-sr * 1e-3) (wr * 1e-3)).s_prime * 1000), 2),
        w0_prime := (num ((calcR (lr * 1e-9) (fr * 1e-3) (-sr * 1e-3) (wr * 1e-3)).w0_prime * 1000), 3),
        zr_in := (num ((calcR (lr * 1e-9) (fr * 1e-3) (-sr * 1e-3) (wr * 1e-3)).zr * 1000), 2),
        zr_prime := (num ((calcR (lr * 1e-9) (fr * 1e-3) (-sr * 1e-3) (wr * 1e-3)).zr_prime * 1000), 2),
        theta_in := (num ((calcR (lr * 1e-9) (fr * 1e-3) (-sr * 1e-3) (wr * 1e-3)).theta_in * 1000), 3),
        theta_prime := (num ((calcR (lr * 1e-9) (fr * 1e-3) (-sr * 1e-3) (wr * 1e-3)).theta_prime * 1000), 3),
        canvas := some ⟨num (lr * 1e-9), num (fr * 1e-3), num (-sr * 1e-3), num (wr * 1e-3),
          num ((calcR (lr * 1e-9) (fr * 1e-3) (-sr * 1e-3) (wr * 1e-3)).zr),
          num ((calcR (lr * 1e-9) (fr * 1e-3) (-sr * 1e-3) (wr * 1e-3)).theta_in),
          num ((calcR (lr * 1e-9) (fr * 1e-3) (-sr * 1e-3) (wr * 1e-3)).s_prime),
          num ((calcR (lr * 1e-9) (fr * 1e-3) (-sr * 1e-3) (wr * 1e-3)).w0_prime),
          num ((calcR (lr * 1e-9) (fr * 1e-3) (-sr * 1e-3) (wr * 1e-3)).zr_prime),
          num ((calcR (lr * 1e-9) (fr * 1e-3) (-sr * 1e-3) (wr * 1e-3)).theta_prime)⟩ } := by
  have hL : (0:ℝ) < lr * 1e-9 := by positivity
  have hF : (0:ℝ) < fr * 1e-3 := by positivity
  have hW : (0:ℝ) < wr * 1e-3 := by positivity
  have h1 : ¬ (jsIsNaN (jsMul (num lr) (num 1e-9)) ∨ jsIsNaN (jsMul (num fr) (num 1e-3)) ∨
      jsIsNaN (jsMul (jsNeg (num sr)) (num 1e-3)) ∨ jsIsNaN (jsMul (num wr) (num 1e-3))) := by
    simp [jsIsNaN]
  have h2 : ¬ (jsLe0 (jsMul (num wr) (num 1e-3)) ∨ jsLe0 (jsMul (num lr) (num 1e-9)) ∨
      jsLe0 (jsMul (num fr) (num 1e-3))) := by
    simp only [jsMul_num_num, jsLe0]
    push_neg
    exact ⟨hW, hL, hF⟩
  rw [updateVisualization_of_valid ⟨num lr, num fr, num sr, num wr⟩ st h1 h2]
  simp only [jsNeg_num, jsMul_num_num]
  rw [jsCalc_num (lr * 1e-9) (fr * 1e-3) (-sr * 1e-3) (wr * 1e-3) hL hF hW]
  simp only [jsMul_num_num]

/-- Witness for `display_units_and_precision` at the field values
λ = 632.8 (nm), f = 100 (mm), s = 150 (mm), w0 = 0.5 (mm), starting from the
prior display state `st0`. -/
theorem display_units_and_precision_witness :
    (0:ℝ) < 632.8 ∧ (0:ℝ) < 100 ∧ (0:ℝ) < 0.5 ∧
    updateVisualization ⟨num 632.8, num 100, num 150, num 0.5⟩ st0 =
      { s_prime := (num ((calcR (632.8 * 1e-9) (100 * 1e-3) (-150 * 1e-3) (0.5 * 1e-3)).s_prime * 1000), 2),
        w0_prime := (num ((calcR (632.8 * 1e-9) (100 * 1e-3) (-150 * 1e-3) (0.5 * 1e-3)).w0_prime * 1000), 3),
        zr_in := (num ((calcR (632.8 * 1e-9) (100 * 1e-3) (-150 * 1e-3) (0.5 * 1e-3)).zr * 1000), 2),
        zr_prime := (num ((calcR (632.8 * 1e-9) (100 * 1e-3) (-150 * 1e-3) (0.5 * 1e-3)).zr_prime * 1000), 2),
        theta_in := (num ((calcR (632.8 * 1e-9) (100 * 1e-3) (-150 * 1e-3) (0.5 * 1e-3)).theta_in * 1000), 3),
        theta_prime := (num ((calcR (632.8 * 1e-9) (100 * 1e-3) (-150 * 1e-3) (0.5 * 1e-3)).theta_prime * 1000), 3),
        canvas := some ⟨num (632.8 * 1e-9), num (100 * 1e-3), num (-150 * 1e-3), num (0.5 * 1e-3),
          num ((calcR (632.8 * 1e-9) (100 * 1e-3) (-150 * 1e-3) (0.5 * 1e-3)).zr),
          num ((calcR (632.8 * 1e-9) (100 * 1e-3) (-150 * 1e-3) (0.5 * 1e-3)).theta_in),
          num ((calcR (632.8 * 1e-9) (100 * 1e-3) (-150 * 1e-3) (0.5 * 1e-3)).s_prime),
          num ((calcR (632.8 * 1e-9) (100 * 1e-3) (-150 * 1e-3) (0.5 * 1e-3)).w0_prime),
          num ((calcR (632.8 * 1e-9) (100 * 1e-3) (-150 * 1e-3) (0.5 * 1e-3)).zr_prime),
          num ((calcR (632.8 * 1e-9) (100 * 1e-3) (-150 * 1e-3) (0.5 * 1e-3)).theta_prime)⟩ } :=
  ⟨by norm_num, by norm_num, by norm_num,
   display_units_and_precision 632.8 100 150 0.5 st0 (by norm_num) (by norm_num) (by norm_num)⟩

/-- C6: for every input with a positive focal length, the renderer's
horizontal span equals `2.2 ×` the maximum of |object distance|, output waist
position, focal length, |object distance + focal length| and |output waist
position − focal length|, and the horizontal scale is the canvas width
divided by that span.  (The code takes `-s` rather than `|s|`; for `s ≤ 0`
they coincide, and for `s > 0` neither term can attain the maximum because
`|s| < |s + f|`, so the two maxima agree for every real `s`.) -/
theorem span_and_scale (s sp f W : ℝ) (hf : 0 < f) :
    totalDist s sp f = 2.2 * max (max (max (max |s| sp) f) |s + f|) |sp - f| ∧
    scaleX W s sp f = W / totalDist s sp f := by
  refine ⟨?_, rfl⟩
  rw [totalDist, mul_comm]
  congr 1
  rcases le_or_lt s 0 with hs | hs
  · rw [abs_of_nonpos hs]
  · apply le_antisymm
    · exact max_le_max (max_le_max (max_le_max (max_le_max (neg_le_abs s) le_rfl)
        le_rfl) le_rfl) le_rfl
    · have hsf : |s| ≤ |s + f| := by
        rw [abs_of_pos hs, abs_of_pos (by linarith)]
        linarith
      refine max_le (max_le (max_le (max_le ?_ ?_) ?_) ?_) ?_
      · exact hsf.trans ((le_max_right _ _).trans (le_max_left _ _))
      · exact le_max_of_le_left (le_max_of_le_left (le_max_of_le_left (le_max_right _ _)))
      · exact le_max_of_le_left (le_max_of_le_left (le_max_right _ _))
      · exact le_max_of_le_left (le_max_right _ _)
      · exact le_max_right _ _

/-- Witness for `span_and_scale` at s = −0.15 m, output waist position 0.3 m,
f = 0.1 m, canvas width 1000 px. -/
theorem span_and_scale_witness :
    (0:ℝ) < 0.1 ∧
    (totalDist (-0.15) 0.3 0.1 =
      2.2 * max (max (max (max |(-0.15:ℝ)| 0.3) 0.1) |(-0.15:ℝ) + 0.1|) |(0.3:ℝ) - 0.1| ∧
     scaleX 1000 (-0.15) 0.3 0.1 = 1000 / totalDist (-0.15) 0.3 0.1) :=
  ⟨by norm_num, span_and_scale (-0.15) 0.3 0.1 1000 (by norm_num)⟩

theorem w_z_nonneg (r p zr z : ℝ) (hr : 0 ≤ r) : 0 ≤ w_z r p zr z :=
  mul_nonneg hr (Real.sqrt_nonneg _)

theorem scaleY_pos (H w0 s zr w0p sp zrp td : ℝ) (hH : 0 < H) (hw : 0 < w0) :
    0 < scaleY H w0 s zr w0p sp zrp td := by
  have h1 : 0 < beamWidthAtStart w0 s zr td :=
    mul_pos hw (Real.sqrt_pos.mpr (by positivity))
  have h2 : 0 < maxHeight w0 s zr w0p sp zrp td :=
    lt_of_lt_of_le h1 (le_max_left _ _)
  exact div_pos hH (mul_pos h2 (by norm_num))

theorem envelope_sym_at (ax sy r p zr z : ℝ) (hr : 0 ≤ r) (hsy : 0 ≤ sy) :
    beamTopY ax sy r p zr z - ax = -(beamBotY ax sy r p zr z - ax) ∧
    |beamTopY ax sy r p zr z - ax| = w_z r p zr z * sy := by
  constructor
  · rw [beamTopY, beamBotY]
    ring
  · rw [beamTopY]
    have e : ax - w_z r p zr z * sy - ax = -(w_z r p zr z * sy) := by ring
    rw [e, abs_neg, abs_of_nonneg (mul_nonneg (w_z_nonneg r p zr z hr) hsy)]

/-- C8: for every valid input, both beam envelopes are symmetric about the
optical axis at every horizontal position `z`: the y-offsets from the axis of
the top and the bottom boundary points are negatives of each other, and their
common magnitude is `w(z) · scaleY` with
`w(z) = waistRadius·√(1 + ((z − waistPos)/rayleighRange)²)`, where the input
beam is drawn with waist `(s, w0, zR)` and the output beam with
`(s', w0', zR')`, and `scaleY` comes from the drawCanvas layout. -/
theorem envelope_symmetric (l f s w H z sy : ℝ)
    (hl : 0 < l) (hf : 0 < f) (hw : 0 < w) (hH : 0 < H)
    (hsy : sy = scaleY H w s (calcR l f s w).zr (calcR l f s w).w0_prime
      (calcR l f s w).s_prime (calcR l f s w).zr_prime
      (totalDist s (calcR l f s w).s_prime f)) :
    (beamTopY (H / 2) sy w s (calcR l f s w).zr z - H / 2 =
        -(beamBotY (H / 2) sy w s (calcR l f s w).zr z - H / 2) ∧
      |beamTopY (H / 2) sy w s (calcR l f s w).zr z - H / 2| =
        w_z w s (calcR l f s w).zr z * sy) ∧
    (beamTopY (H / 2) sy (calcR l f s w).w0_prime (calcR l f s w).s_prime
        (calcR l f s w).zr_prime z - H / 2 =
        -(beamBotY (H / 2) sy (calcR l f s w).w0_prime (calcR l f s w).s_prime
          (calcR l f s w).zr_prime z - H / 2) ∧
      |beamTopY (H / 2) sy (calcR l f s w).w0_prime (calcR l f s w).s_prime
          (calcR l f s w).zr_prime z - H / 2| =
        w_z (calcR l f s w).w0_prime (calcR l f s w).s_prime
          (calcR l f s w).zr_prime z * sy) := by
  obtain ⟨-, -, -, hw0p, -, -, -, -⟩ := calcR_pos l f s w hl hf hw
  have hsy0 : 0 ≤ sy := by
    rw [hsy]
    exact (scaleY_pos H w s (calcR l f s w).zr (calcR l f s w).w0_prime
      (calcR l f s w).s_prime (calcR l f s w).zr_prime
      (totalDist s (calcR l f s w).s_prime f) hH hw).le
  exact ⟨envelope_sym_at (H / 2) sy w s (calcR l f s w).zr z hw.le hsy0,
    envelope_sym_at (H / 2) sy (calcR l f s w).w0_prime (calcR l f s w).s_prime
      (calcR l f s w).zr_prime z hw0p.le hsy0⟩

/-- The drawCanvas vertical scale at λ = 632.8 nm, f = 100 mm, s = −150 mm,
w0 = 0.5 mm on a 500-pixel-high canvas. -/
noncomputable def syEx : ℝ :=
  scaleY 500 0.0005 (-0.15) (calcR 632.8e-9 0.1 (-0.15) 0.0005).zr
    (calcR 632.8e-9 0.1 (-0.15) 0.0005).w0_prime
    (calcR 632.8e-9 0.1 (-0.15) 0.0005).s_prime
    (calcR 632.8e-9 0.1 (-0.15) 0.0005).zr_prime
    (totalDist (-0.15) (calcR 632.8e-9 0.1 (-0.15) 0.0005).s_prime 0.1)

/-- Witness for `envelope_symmetric` at λ = 632.8 nm, f = 100 mm, s = −150 mm,
w0 = 0.5 mm, canvas height 500, sampled position z = 0.02 m. -/
theorem envelope_symmetric_witness :
    (0:ℝ) < 632.8e-9 ∧ (0:ℝ) < 0.1 ∧ (0:ℝ) < 0.0005 ∧ (0:ℝ) < 500 ∧
    ((beamTopY (500 / 2) syEx 0.0005 (-0.15) (calcR 632.8e-9 0.1 (-0.15) 0.0005).zr 0.02 - 500 / 2 =
        -(beamBotY (500 / 2) syEx 0.0005 (-0.15) (calcR 632.8e-9 0.1 (-0.15) 0.0005).zr 0.02 - 500 / 2) ∧
      |beamTopY (500 / 2) syEx 0.0005 (-0.15) (calcR 632.8e-9 0.1 (-0.15) 0.0005).zr 0.02 - 500 / 2| =
        w_z 0.0005 (-0.15) (calcR 632.8e-9 0.1 (-0.15) 0.0005).zr 0.02 * syEx) ∧
    (beamTopY (500 / 2) syEx (calcR 632.8e-9 0.1 (-0.15) 0.0005).w0_prime
        (calcR 632.8e-9 0.1 (-0.15) 0.0005).s_prime
        (calcR 632.8e-9 0.1 (-0.15) 0.0005).zr_prime 0.02 - 500 / 2 =
        -(beamBotY (500 / 2) syEx (calcR 632.8e-9 0.1 (-0.15) 0.0005).w0_prime
          (calcR 632.8e-9 0.1 (-0.15) 0.0005).s_prime
          (calcR 632.8e-9 0.1 (-0.15) 0.0005).zr_prime 0.02 - 500 / 2) ∧
      |beamTopY (500 / 2) syEx (calcR 632.8e-9 0.1 (-0.15) 0.0005).w0_prime
          (calcR 632.8e-9 0.1 (-0.15) 0.0005).s_prime
          (calcR 632.8e-9 0.1 (-0.15) 0.0005).zr_prime 0.02 - 500 / 2| =
        w_z (calcR 632.8e-9 0.1 (-0.15) 0.0005).w0_prime
          (calcR 632.8e-9 0.1 (-0.15) 0.0005).s_prime
          (calcR 632.8e-9 0.1 (-0.15) 0.0005).zr_prime 0.02 * syEx)) :=
  ⟨by norm_num, by norm_num, by norm_num, by norm_num,
   envelope_symmetric 632.8e-9 0.1 (-0.15) 0.0005 500 0.02 syEx
     (by norm_num) (by norm_num) (by norm_num) (by norm_num) rfl⟩

/-- C9 counterexample: the claim "the tint used for the input beam is
distinct from the tint used for the output beam" is false — `drawBeam` sets
the same literal fill style `rgba(255, 100, 100, 0.3)` (line 159) before both
the input-beam call (line 164) and the output-beam call (line 165), so the
claimed conjunction (translucent AND distinct) does not hold. -/
theorem beam_tint_distinct_counterexample :
    ¬ (0 < inputBeamFill.a ∧ inputBeamFill.a < 1 ∧ inputBeamFill ≠ outputBeamFill) := by
  intro h
  exact h.2.2 rfl

/-- C9 amended: both beam envelopes are filled with a translucent tint
(`rgba(255, 100, 100, 0.3)`, alpha strictly between 0 and 1), but the two
tints are identical, not distinct. -/
theorem beam_tint_shared :
    inputBeamFill = outputBeamFill ∧
    inputBeamFill = FillColor.mk 255 100 100 0.3 ∧
    0 < inputBeamFill.a ∧ inputBeamFill.a < 1 := by
  refine ⟨rfl, rfl, ?_, ?_⟩ <;> norm_num [inputBeamFill, drawBeamFill]

/-- C7 counterexample: at λ = 632.8 nm, f = 100 mm, object distance 150 mm,
w0 = 0.5 mm, the input Rayleigh range `zR = π·(0.0005)²/632.8e-9 m` is
`≈ 1241.15 mm`, not `≈ 1240.6 mm`: its value in mm is NOT within 0.05 of
1240.6, so the claim "≈ 1240.6 mm, correct to 1 decimal in mm" is false. -/
theorem rayleigh_value_counterexample :
    ¬ |(calcR 632.8e-9 0.1 (-0.15) 0.0005).zr * 1000 - 1240.6| < 0.05 := by
  rw [calcR_zr, abs_lt]
  intro h
  have e : Real.pi * 0.0005 ^ 2 / 632.8e-9 * 1000 = 312500 / 791 * Real.pi := by
    ring_nf
  rw [e] at h
  have hpi := Real.pi_gt_d6
  linarith [h.2]

/-- C7 amended: at λ = 632.8 nm, f = 100 mm, object distance 150 mm,
w0 = 0.5 mm, the calculator's input Rayleigh range equals
`π·(0.0005)²/632.8e-9` meters ≈ 1241.1 mm (correct to 1 decimal in mm; the
spec's 1240.6 is a misrounding), and all seven derived output values are
non-NaN. -/
theorem rayleigh_value_example :
    (calcR 632.8e-9 0.1 (-0.15) 0.0005).zr = Real.pi * 0.0005 ^ 2 / 632.8e-9 ∧
    |(calcR 632.8e-9 0.1 (-0.15) 0.0005).zr * 1000 - 1241.1| < 0.05 ∧
    (jsCalc (num 632.8e-9) (num 0.1) (num (-0.15)) (num 0.0005)).zr ≠ nan ∧
    (jsCalc (num 632.8e-9) (num 0.1) (num (-0.15)) (num 0.0005)).w0_prime ≠ nan ∧
    (jsCalc (num 632.8e-9) (num 0.1) (num (-0.15)) (num 0.0005)).alpha ≠ nan ∧
    (jsCalc (num 632.8e-9) (num 0.1) (num (-0.15)) (num 0.0005)).s_prime ≠ nan ∧
    (jsCalc (num 632.8e-9) (num 0.1) (num (-0.15)) (num 0.0005)).theta_in ≠ nan ∧
    (jsCalc (num 632.8e-9) (num 0.1) (num (-0.15)) (num 0.0005)).theta_prime ≠ nan ∧
    (jsCalc (num 632.8e-9) (num 0.1) (num (-0.15)) (num 0.0005)).zr_prime ≠ nan := by
  refine ⟨rfl, ?_, ?_⟩
  · rw [calcR_zr, abs_lt]
    have e : Real.pi * 0.0005 ^ 2 / 632.8e-9 * 1000 = 312500 / 791 * Real.pi := by
      ring_nf
    rw [e]
    constructor
    · have hpi := Real.pi_gt_d6
      linarith
    · have hpi := Real.pi_lt_d6
      linarith
  · rw [jsCalc_num 632.8e-9 0.1 (-0.15) 0.0005 (by norm_num) (by norm_num) (by norm_num)]
    exact ⟨num_ne_nan _, num_ne_nan _, num_ne_nan _, num_ne_nan _,
      num_ne_nan _, num_ne_nan _, num_ne_nan _⟩
